import Mathlib

/-!
Verification development for the `airnet` package
(`src/airnet/model.py`, `src/airnet/afedat.py`, `src/airnet/reader.py`).

Two shallow embeddings are used:

* the network-assembly layer (`Model.__init__`, the element constructors,
  `AirflowElement.get_arg`) is embedded over `ℚ`: that code only stores and
  compares the numeric fields, so every definition is computable and closed
  facts evaluate by `rfl`/`decide`;
* the flow-law layer (`Afe_Plr.calculate`, `Afe_Dor.calculate`,
  `Model.set_properties`) is embedded over `ℝ`, with Python's `math.pow` on a
  positive base modelled by `Real.rpow` and `math.sqrt` by `Real.sqrt`.

Python runtime failures (KeyError on a dict subscript, TypeError from a bad
call, AttributeError on a missing attribute, ZeroDivisionError) are modelled
with an `Except PyError` result; Python's `None` is modelled by `Option`.
-/

/-- The Python exceptions that the embedded code can raise. -/
inductive PyError : Type
  /-- `d[k]` with `k` absent from the dict `d`. -/
  | keyError : PyError
  /-- a call that does not match the callee's signature. -/
  | typeError : PyError
  /-- reading an attribute the object does not have. -/
  | attributeError : PyError
  /-- division by zero (Python raises it for float division as well). -/
  | zeroDivisionError : PyError
  /-- `afedat.MissingArgument`, declared in the source. -/
  | missingArgument : PyError
  deriving DecidableEq, Repr

/-- `reader.ElementType`: the enum the `Reader` stores under the `type` key of
an element record (reader.py lines 15-23). -/
inductive ElementType : Type
  | PLR | DWC | DOR | CFR | FAN | CPF | QFR | CKV
  deriving DecidableEq, Repr

/-- A Python dict key as used around `object_lookup`: `object_lookup` is keyed
by the strings `'plr'`, `'dwc'`, ... (afedat.py lines 203-205) while the
records produced by the `Reader` carry `ElementType` enum members in their
`type` field; an enum member never equals a string, so both key kinds must be
representable. -/
inductive PyKey : Type
  | str (s : String)
  | enumElem (e : ElementType)
  deriving DecidableEq, Repr

/-- `model.Node` (model.py lines 10-22).  `index` is `None` until assigned;
the four derived fields start at `0.0`. -/
structure Node (α : Type) : Type where
  name : String
  «variable» : Bool
  height : α
  temperature : α
  pressure : α
  index : Option Nat
  density : α
  viscosity : α
  sqrt_density : α
  dvisc : α
  deriving DecidableEq, Repr

/-- A node record as produced by the `Reader` (reader.py lines 58-71):
`name`, `type`, `ht`, `temp` always present, `pres` present for non-`'v'`
types.  `type` is `Option` because `Model.__init__` reads it with
`el.pop('type', 'c')`. -/
structure NodeRec (α : Type) : Type where
  name : String
  type : Option String
  ht : α
  temp : α
  pres : Option α
  deriving DecidableEq, Repr

/-- A link record as produced by the `Reader` (reader.py lines 177-188):
keys `name`, `node-1`, `ht-1`, `node-2`, `ht-2`, `element`, and optionally
`wind`, `wpmod`. -/
structure LinkRec (α : Type) : Type where
  name : String
  node1 : String
  ht1 : α
  node2 : String
  ht2 : α
  element : String
  wind : Option String
  wpmod : Option α
  deriving DecidableEq, Repr

/-- An element record as produced by the `Reader`: a `type` tag, a `name`,
and the remaining numeric fields, which `Model.__init__` forwards as keyword
arguments to the element constructor. -/
structure ElemRec (α : Type) : Type where
  type : PyKey
  name : String
  kwargs : List (String × α)
  deriving DecidableEq, Repr

/-- One parsed input record (the dicts tagged with `input_type` that the
`Reader` yields and `Model.__init__` consumes). -/
inductive Record (α : Type) : Type
  | title (t : String)
  | node (n : NodeRec α)
  | link (l : LinkRec α)
  | element (e : ElemRec α)
  deriving DecidableEq, Repr

/-- Python `dict.get(k)`: the value when the key is present, `None` otherwise.
It never raises. -/
def dict_get {α : Type} (d : List (String × α)) (k : String) : Option α :=
  (d.find? (fun kv => kv.1 = k)).map (fun kv => kv.2)

/-- Python `d[k]` on a dict: the value, or `KeyError` when absent. -/
def dict_item {α : Type} (d : List (String × α)) (k : String) :
    Except PyError α :=
  match dict_get d k with
  | some v => Except.ok v
  | none => Except.error PyError.keyError

/-- `AirflowElement.get_arg` (afedat.py lines 10-18).  The body is

```
try: return dictionary.get(name0)
except KeyError: pass
try: return dictionary.get(name1)
except KeyError: raise MissingArgument(...)
```

`dict.get` is total and returns `None` for an absent key, so no `KeyError`
is ever raised inside either `try`: the first `return` always executes, the
second lookup and the `raise MissingArgument` are unreachable.  The faithful
embedding therefore always returns `ok` of the first lookup (the `Except`
result type records that the function is declared to raise). -/
def get_arg {α : Type} (dictionary : List (String × α))
    (name0 _name1 _obj : String) : Except PyError (Option α) :=
  Except.ok (dict_get dictionary name0)

/-- The state of an `Afe_Plr` object right after `Afe_Plr.__init__`
(afedat.py lines 21-30).  Because `get_arg` can return `None` (see
`get_arg`), the `linear` and `coefficient` slots may hold `None`; the field
`init_coeff` models the source attribute `self.initializer`. -/
structure Afe_Plr_raw (α : Type) : Type where
  init_coeff : Option α
  linear : Option α
  coefficient : Option α
  exponent : α
  deriving DecidableEq, Repr

/-- `Afe_Plr.__init__(self, **kwargs)` (afedat.py lines 22-30), as the state
it leaves behind.  Line numbers in comments refer to afedat.py. -/
def Afe_Plr_init (kwargs : List (String × ℚ)) :
    Except PyError (Afe_Plr_raw ℚ) :=
  let ini0 := dict_get kwargs "init"                 -- line 23
  let ini1 := match ini0 with                        -- lines 24-25
    | none => dict_get kwargs "initializer"
    | some v => some v
  match get_arg kwargs "lam" "linear" "Afe_Plr" with -- line 26
  | Except.error e => Except.error e
  | Except.ok linear =>
    match get_arg kwargs "turb" "coefficient" "Afe_Plr" with -- line 27
    | Except.error e => Except.error e
    | Except.ok coefficient =>
      let exponent := (dict_get kwargs "expt").getD (0.5 : ℚ) -- line 28
      let ini2 := match ini1 with                    -- lines 29-30
        | none => linear
        | some v => some v
      Except.ok ⟨ini2, linear, coefficient, exponent⟩

/-- Calling `Afe_Plr.__init__` with an explicit positional-argument list.
The Python signature is `def __init__(self, **kwargs)`: it accepts no
positional argument besides `self`, so any non-empty positional list raises
`TypeError` at the call.  The only positional value ever passed in this code
base is a dict, hence the argument type. -/
def Afe_Plr_initCall (posargs : List (List (String × ℚ)))
    (kwargs : List (String × ℚ)) : Except PyError (Afe_Plr_raw ℚ) :=
  match posargs with
  | [] => Afe_Plr_init kwargs
  | _ :: _ => Except.error PyError.typeError

/-- A call of `get_arg` that passes only three of the four required
arguments, as `Afe_Dor.__init__` does (afedat.py lines 94-97): Python raises
`TypeError` (missing required positional argument `object`) at the call. -/
def get_arg_call3 {α : Type} (_dictionary : List (String × α))
    (_name0 _name1 : String) : Except PyError (Option α) :=
  Except.error PyError.typeError

/-- The attribute state `Afe_Dor.__init__` would try to build
(afedat.py lines 92-97). -/
structure Afe_Dor_raw (α : Type) : Type where
  plr : Afe_Plr_raw α
  min_temperature_difference : Option α
  height : Option α
  width : Option α
  discharge_coefficient : Option α
  deriving DecidableEq, Repr

/-- `Afe_Dor.__init__(self, **kwargs)` (afedat.py lines 92-97).  Its first
statement is `super().__init__(kwargs)`, which passes the kwargs dict as a
single positional argument to `Afe_Plr.__init__`; that call raises
`TypeError` (see `Afe_Plr_initCall`), so the constructor never completes.
(The following `get_arg` calls would also raise `TypeError`, each omitting
the required `object` parameter; they are modelled by `get_arg_call3`.) -/
def Afe_Dor_init (kwargs : List (String × ℚ)) :
    Except PyError (Afe_Dor_raw ℚ) :=
  match Afe_Plr_initCall [kwargs] [] with            -- line 93
  | Except.error e => Except.error e
  | Except.ok plr =>
    match get_arg_call3 kwargs "dtmin" "min_temperature_difference" with
    | Except.error e => Except.error e
    | Except.ok dtmin =>
      match get_arg_call3 kwargs "ht" "height" with
      | Except.error e => Except.error e
      | Except.ok ht =>
        match get_arg_call3 kwargs "wd" "width" with
        | Except.error e => Except.error e
        | Except.ok wd =>
          match get_arg_call3 kwargs "cd" "discharge_coefficient" with
          | Except.error e => Except.error e
          | Except.ok cd => Except.ok ⟨plr, dtmin, ht, wd, cd⟩

/-- Binding `**el` against a `def` with only named, defaulted parameters:
Python raises `TypeError` when `el` holds a keyword that is not among the
parameter names, otherwise each parameter takes the supplied value or its
default.  Used for the element classes with plain positional/keyword
signatures (`Afe_Dwc`, `Afe_Qfr`, `Afe_Cfr`, `Afe_Fan`, `Afe_Cpf`,
`Afe_Ckv`, `Afe_Prv`). -/
def bind_kwargs {α : Type} (allowed : List String) (el : List (String × α)) :
    Except PyError Unit :=
  if el.all (fun kv => allowed.contains kv.1) then Except.ok ()
  else Except.error PyError.typeError

/-- `Afe_Dwc.__init__` field state (afedat.py lines 66-78). -/
structure Afe_Dwc_raw (α : Type) : Type where
  length : α
  hdia : α
  area : α
  rough : α
  tdlc : α
  lflc : α
  ldlc : α
  linit : α
  ed : α
  ld : α
  f : α
  deriving DecidableEq, Repr

/-- `Afe_Dwc(**el)` (afedat.py lines 66-78): parameters
`length, hdia, area, rough, tdlc, lflc, ldlc, linit, ed, ld, f`, all
defaulting to `0.0`. -/
def Afe_Dwc_init (el : List (String × ℚ)) : Except PyError (Afe_Dwc_raw ℚ) :=
  match bind_kwargs ["length", "hdia", "area", "rough", "tdlc", "lflc",
      "ldlc", "linit", "ed", "ld", "f"] el with
  | Except.error e => Except.error e
  | Except.ok _ =>
    let g := fun k => (dict_get el k).getD (0 : ℚ)
    Except.ok ⟨g "length", g "hdia", g "area", g "rough", g "tdlc", g "lflc",
      g "ldlc", g "linit", g "ed", g "ld", g "f"⟩

/-- `Afe_Qfr.__init__` field state (afedat.py lines 83-86). -/
structure Afe_Qfr_raw (α : Type) : Type where
  a : α
  b : α
  deriving DecidableEq, Repr

/-- `Afe_Qfr(**el)` (afedat.py lines 83-86): parameters `a, b`, default `0.0`. -/
def Afe_Qfr_init (el : List (String × ℚ)) : Except PyError (Afe_Qfr_raw ℚ) :=
  match bind_kwargs ["a", "b"] el with
  | Except.error e => Except.error e
  | Except.ok _ =>
    Except.ok ⟨(dict_get el "a").getD 0, (dict_get el "b").getD 0⟩

/-- `Afe_Cfr.__init__` field state (afedat.py lines 152-154). -/
structure Afe_Cfr_raw (α : Type) : Type where
  flow : α
  deriving DecidableEq, Repr

/-- `Afe_Cfr(**el)` (afedat.py lines 152-154): parameter `flow`, default `0.0`. -/
def Afe_Cfr_init (el : List (String × ℚ)) : Except PyError (Afe_Cfr_raw ℚ) :=
  match bind_kwargs ["flow"] el with
  | Except.error e => Except.error e
  | Except.ok _ => Except.ok ⟨(dict_get el "flow").getD 0⟩

/-- `Afe_Fan.__init__` field state (afedat.py lines 159-171); the `pts`
parameter is accepted but bound to no attribute. -/
structure Afe_Fan_raw (α : Type) : Type where
  init : α
  lam : α
  turb : α
  expt : α
  rdens : α
  fdf : α
  sop : α
  off : α
  deriving DecidableEq, Repr

/-- `Afe_Fan(**el)` (afedat.py lines 160-171): parameters
`init, lam, turb, expt, rdens, fdf, sop, off, mf1, pts`; `expt` defaults to
`0.5`, the other numeric ones to `0.0`. -/
def Afe_Fan_init (el : List (String × ℚ)) : Except PyError (Afe_Fan_raw ℚ) :=
  match bind_kwargs ["init", "lam", "turb", "expt", "rdens", "fdf", "sop",
      "off", "mf1", "pts"] el with
  | Except.error e => Except.error e
  | Except.ok _ =>
    let g := fun k => (dict_get el k).getD (0 : ℚ)
    Except.ok ⟨g "init", g "lam", g "turb",
      (dict_get el "expt").getD (0.5 : ℚ), g "rdens", g "fdf", g "sop", g "off"⟩

/-- `Afe_Cpf.__init__` field state (afedat.py lines 176-180). -/
structure Afe_Cpf_raw (α : Type) : Type where
  upo : α
  prmin : α
  ftyp : α
  deriving DecidableEq, Repr

/-- `Afe_Cpf(**el)` (afedat.py lines 176-180): parameters `upo, prmin, ftyp`. -/
def Afe_Cpf_init (el : List (String × ℚ)) : Except PyError (Afe_Cpf_raw ℚ) :=
  match bind_kwargs ["upo", "prmin", "ftyp"] el with
  | Except.error e => Except.error e
  | Except.ok _ =>
    let g := fun k => (dict_get el k).getD (0 : ℚ)
    Except.ok ⟨g "upo", g "prmin", g "ftyp"⟩

/-- `Afe_Ckv.__init__` field state (afedat.py lines 185-188). -/
structure Afe_Ckv_raw (α : Type) : Type where
  dp0 : α
  coef : α
  deriving DecidableEq, Repr

/-- `Afe_Ckv(**el)` (afedat.py lines 185-188): parameters `dp0, coef`. -/
def Afe_Ckv_init (el : List (String × ℚ)) : Except PyError (Afe_Ckv_raw ℚ) :=
  match bind_kwargs ["dp0", "coef"] el with
  | Except.error e => Except.error e
  | Except.ok _ =>
    Except.ok ⟨(dict_get el "dp0").getD 0, (dict_get el "coef").getD 0⟩

/-- `Afe_Prv.__init__` field state (afedat.py lines 193-198). -/
structure Afe_Prv_raw (α : Type) : Type where
  fpos : α
  cpos : α
  fneg : α
  cneg : α
  deriving DecidableEq, Repr

/-- `Afe_Prv(**el)` (afedat.py lines 193-198): parameters
`fpos, cpos, fneg, cneg`. -/
def Afe_Prv_init (el : List (String × ℚ)) : Except PyError (Afe_Prv_raw ℚ) :=
  match bind_kwargs ["fpos", "cpos", "fneg", "cneg"] el with
  | Except.error e => Except.error e
  | Except.ok _ =>
    let g := fun k => (dict_get el k).getD (0 : ℚ)
    Except.ok ⟨g "fpos", g "cpos", g "fneg", g "cneg"⟩

/-- An element object as stored in `Model.elements`: one of the nine
`afedat` classes. -/
inductive ElementObj : Type
  | plr (e : Afe_Plr_raw ℚ)
  | dwc (e : Afe_Dwc_raw ℚ)
  | qfr (e : Afe_Qfr_raw ℚ)
  | dor (e : Afe_Dor_raw ℚ)
  | cfr (e : Afe_Cfr_raw ℚ)
  | fan (e : Afe_Fan_raw ℚ)
  | cpf (e : Afe_Cpf_raw ℚ)
  | ckv (e : Afe_Ckv_raw ℚ)
  | prv (e : Afe_Prv_raw ℚ)
  deriving DecidableEq, Repr

/-- `afedat.object_lookup` (afedat.py lines 203-205): a dict from the type
tag **strings** to the element classes; here each class is its constructor
call `cls(**el)`. -/
def object_lookup :
    List (PyKey × (List (String × ℚ) → Except PyError ElementObj)) :=
  [(PyKey.str "plr", fun el => (Afe_Plr_init el).map ElementObj.plr),
   (PyKey.str "dwc", fun el => (Afe_Dwc_init el).map ElementObj.dwc),
   (PyKey.str "qfr", fun el => (Afe_Qfr_init el).map ElementObj.qfr),
   (PyKey.str "dor", fun el => (Afe_Dor_init el).map ElementObj.dor),
   (PyKey.str "cfr", fun el => (Afe_Cfr_init el).map ElementObj.cfr),
   (PyKey.str "fan", fun el => (Afe_Fan_init el).map ElementObj.fan),
   (PyKey.str "cpf", fun el => (Afe_Cpf_init el).map ElementObj.cpf),
   (PyKey.str "ckv", fun el => (Afe_Ckv_init el).map ElementObj.ckv),
   (PyKey.str "prv", fun el => (Afe_Prv_init el).map ElementObj.prv)]

/-- `d[k]` on a `PyKey`-keyed dict (the lookup
`element_lookup[type]` in model.py line 61). -/
def pykey_item {β : Type} (d : List (PyKey × β)) (k : PyKey) :
    Except PyError β :=
  match (d.find? (fun kv => kv.1 = k)).map (fun kv => kv.2) with
  | some v => Except.ok v
  | none => Except.error PyError.keyError

/-- Node creation in `Model.__init__` (model.py lines 50-53):
`variable = el.pop('type', 'c') == 'c'` followed by
`node_object(variable=variable, **el)` with the remaining record fields.
`Node.__init__` defaults `pres=0.0` and `index=None` and zero-initialises
the derived fields. -/
def node_from_record (r : NodeRec ℚ) : Node ℚ :=
  { name := r.name
    «variable» := (r.type.getD "c") = "c"
    height := r.ht
    temperature := r.temp
    pressure := r.pres.getD 0
    index := none
    density := 0
    viscosity := 0
    sqrt_density := 0
    dvisc := 0 }

/-- A resolved link as stored in `Model.links` (model.py lines 25-36 and
62-68).  The source stores references to the shared `Node` objects; the
embedding stores the node values as looked up at resolution time.
`wpmod` defaults to `0.0` and `mult` to `1.0`. -/
structure LinkObj : Type where
  name : String
  node0 : Node ℚ
  node1 : Node ℚ
  ht0 : ℚ
  ht1 : ℚ
  element : ElementObj
  wind : Option String
  wpmod : ℚ
  mult : ℚ
  deriving DecidableEq, Repr

/-- The mutable state accumulated by the first loop of `Model.__init__`
(model.py lines 41-61): the title, the `name → Node` dict, the
`name → element` dict, and the deferred link records. -/
structure BuildState : Type where
  title : String
  nodes : List (String × Node ℚ)
  elements : List (String × ElementObj)
  link_records : List (LinkRec ℚ)
  deriving Repr

/-- Python dict assignment `d[k] = v`: overwrite in place when the key
exists, append otherwise (Python dicts keep insertion order, which the
index-assignment loop of `Model.__init__` later iterates). -/
def dict_set {β : Type} : List (String × β) → String → β → List (String × β)
  | [], k, v => [(k, v)]
  | (k', v') :: rest, k, v =>
    if k' = k then (k, v) :: rest else (k', v') :: dict_set rest k v

/-- One iteration of the first loop of `Model.__init__`
(model.py lines 47-61), dispatching on the record's `input_type`. -/
def build_step (s : BuildState) : Record ℚ → Except PyError BuildState
  | Record.title t => Except.ok { s with title := t }
  | Record.node r =>
    Except.ok { s with nodes := dict_set s.nodes r.name (node_from_record r) }
  | Record.link l =>
    Except.ok { s with link_records := s.link_records ++ [l] }
  | Record.element e =>
    match pykey_item object_lookup e.type with      -- element_lookup[type]
    | Except.error err => Except.error err
    | Except.ok ctor =>
      match ctor e.kwargs with                      -- (**el)
      | Except.error err => Except.error err
      | Except.ok obj =>
        Except.ok { s with elements := dict_set s.elements e.name obj }

/-- The whole first loop of `Model.__init__` (model.py lines 47-61). -/
def build_pass : List (Record ℚ) → BuildState → Except PyError BuildState
  | [], s => Except.ok s
  | r :: rs, s =>
    match build_step s r with
    | Except.error e => Except.error e
    | Except.ok s1 => build_pass rs s1

/-- Resolution of one deferred link record (model.py lines 62-68): the two
node names and the element name are looked up with `d[k]`, raising
`KeyError` when absent, in the source's order (`node-1`, `node-2`,
`element`). -/
def resolve_link (nodes : List (String × Node ℚ))
    (elements : List (String × ElementObj)) (l : LinkRec ℚ) :
    Except PyError LinkObj :=
  match dict_item nodes l.node1 with
  | Except.error e => Except.error e
  | Except.ok node0 =>
    match dict_item nodes l.node2 with
    | Except.error e => Except.error e
    | Except.ok node1 =>
      match dict_item elements l.element with
      | Except.error e => Except.error e
      | Except.ok element =>
        Except.ok { name := l.name, node0 := node0, node1 := node1,
                    ht0 := l.ht1, ht1 := l.ht2, element := element,
                    wind := l.wind, wpmod := l.wpmod.getD 0, mult := 1 }

/-- The link-resolution loop of `Model.__init__` (model.py lines 62-68). -/
def resolve_links (nodes : List (String × Node ℚ))
    (elements : List (String × ElementObj)) :
    List (LinkRec ℚ) → Except PyError (List LinkObj)
  | [] => Except.ok []
  | l :: ls =>
    match resolve_link nodes elements l with
    | Except.error e => Except.error e
    | Except.ok lo =>
      match resolve_links nodes elements ls with
      | Except.error e => Except.error e
      | Except.ok rest => Except.ok (lo :: rest)

/-- The index-assignment loop of `Model.__init__` (model.py lines 70-78):
walk `self.nodes.values()` in insertion order, give each node with
`variable` true the next dense index, and collect those nodes in order.
The source mutates the shared node objects; the embedding returns the
updated dict together with `variable_nodes` and the final count. -/
def index_pass : List (String × Node ℚ) → Nat →
    List (String × Node ℚ) × List (Node ℚ) × Nat
  | [], count => ([], [], count)
  | (k, n) :: rest, count =>
    if n.«variable» then
      let n1 := { n with index := some count }
      let (m, vs, c) := index_pass rest (count + 1)
      ((k, n1) :: m, n1 :: vs, c)
    else
      let (m, vs, c) := index_pass rest count
      ((k, n) :: m, vs, c)

/-- `model.Model` after `Model.__init__`. -/
structure Model : Type where
  title : String
  nodes : List (String × Node ℚ)
  links : List LinkObj
  elements : List (String × ElementObj)
  variable_nodes : List (Node ℚ)
  size : Nat
  deriving Repr

/-- `Model.__init__(self, network_input)` (model.py lines 39-78) with the
default `element_lookup = object_lookup`. -/
def Model_init (network_input : List (Record ℚ)) : Except PyError Model :=
  match build_pass network_input ⟨"", [], [], []⟩ with
  | Except.error e => Except.error e
  | Except.ok s =>
    match resolve_links s.nodes s.elements s.link_records with
    | Except.error e => Except.error e
    | Except.ok links =>
      let (nodes1, vars, count) := index_pass s.nodes 0
      Except.ok { title := s.title, nodes := nodes1, links := links,
                  elements := s.elements, variable_nodes := vars,
                  size := count }

/-- The record sequence the repository's `Reader` produces from the
`AFDATA_PL2` input of `tests/test_model.py` (the example network: 4 nodes,
7 `plr` elements, 3 links).  Each `plr` element line yields
`{'input_type': ELEMENT, 'type': ElementType.PLR, 'name': ..., 'init': ...,
'lam': ..., 'turb': ..., 'expt': ...}` (reader.py lines 74-78): note the
`type` value is the **enum member**, not the string `'plr'`. -/
def afdata_pl2_records : List (Record ℚ) :=
  [Record.title "powerlaw test #2 input file",
   Record.node ⟨"node-1", some "c", 0, 20, some 0⟩,
   Record.node ⟨"node-2", some "v", 0, 20, none⟩,
   Record.node ⟨"node-3", some "v", 0, 20, none⟩,
   Record.node ⟨"node-4", some "c", 0, 20, some (-100)⟩,
   Record.element ⟨PyKey.enumElem ElementType.PLR, "orf-0.0001",
     [("init", 8.124e-9), ("lam", 8.124e-9), ("turb", 8.48528e-5), ("expt", 0.5)]⟩,
   Record.element ⟨PyKey.enumElem ElementType.PLR, "orf-0.001",
     [("init", 2.569e-7), ("lam", 2.569e-7), ("turb", 0.000848528), ("expt", 0.5)]⟩,
   Record.element ⟨PyKey.enumElem ElementType.PLR, "orf-0.01",
     [("init", 8.124e-6), ("lam", 8.124e-6), ("turb", 0.00848528), ("expt", 0.5)]⟩,
   Record.element ⟨PyKey.enumElem ElementType.PLR, "orf-0.1",
     [("init", 0.0002569), ("lam", 0.0002569), ("turb", 0.0848528), ("expt", 0.5)]⟩,
   Record.element ⟨PyKey.enumElem ElementType.PLR, "orf-1.0",
     [("init", 0.008124), ("lam", 0.008124), ("turb", 0.848528), ("expt", 0.5)]⟩,
   Record.element ⟨PyKey.enumElem ElementType.PLR, "orf-10.0",
     [("init", 0.2569), ("lam", 0.2569), ("turb", 8.48528), ("expt", 0.5)]⟩,
   Record.element ⟨PyKey.enumElem ElementType.PLR, "orf-100.0",
     [("init", 8.124), ("lam", 8.124), ("turb", 84.8528), ("expt", 0.5)]⟩,
   Record.link ⟨"link-1", "node-1", 0, "node-2", 0, "orf-0.0001", none, none⟩,
   Record.link ⟨"link-2", "node-2", 0, "node-3", 0, "orf-0.0001", none, none⟩,
   Record.link ⟨"link-3", "node-3", 0, "node-4", 0, "orf-0.0001", none, none⟩]

/-- A link as consumed by the `calculate` methods: they read only the two
endpoint nodes (model.py lines 25-36 carry more fields, all irrelevant to
the flow laws). -/
structure Link : Type where
  node0 : Node ℝ
  node1 : Node ℝ
  ht0 : ℝ
  ht1 : ℝ

/-- An `Afe_Plr` object with numeric coefficients, the state in which
`calculate` is invoked (each coefficient read by `calculate` holds a float
once the element was built from the reader's numeric fields).
`init_coeff` models the source attribute `self.initializer`. -/
structure Afe_Plr : Type where
  init_coeff : ℝ
  linear : ℝ
  coefficient : ℝ
  exponent : ℝ

/-- `Afe_Plr.calculate(self, link, pdrop)` (afedat.py lines 38-63).
Python's `math.pow` on a positive base is `Real.rpow`; the returned tuple is
`(nf, f1, f2, df1, df2)` matching `return 1, f, 0.0, df, 0.0`. -/
noncomputable def Afe_Plr.calculate (e : Afe_Plr) (link : Link) (pdrop : ℝ) :
    ℕ × ℝ × ℝ × ℝ × ℝ :=
  if 0 < pdrop then
    let cdm := e.linear * link.node0.dvisc
    let fl := cdm * pdrop
    let ft := e.coefficient * link.node0.sqrt_density * pdrop ^ e.exponent
    if fl ≤ ft then (1, fl, 0, cdm, 0)
    else (1, ft, 0, ft * e.exponent / pdrop, 0)
  else if pdrop < 0 then
    let cdm := e.linear * link.node1.dvisc
    let fl := cdm * pdrop
    let ft := -e.coefficient * link.node1.sqrt_density * (-pdrop) ^ e.exponent
    if fl ≥ ft then (1, fl, 0, cdm, 0)
    else (1, ft, 0, ft * e.exponent / pdrop, 0)
  else
    let cdm := 0.5 * e.linear * (link.node0.dvisc + link.node1.dvisc)
    (1, 0, 0, cdm, 0)

/-- An `Afe_Dor` object with numeric coefficients, the attribute state its
`calculate` method assumes (afedat.py lines 91-100): the `Afe_Plr` slots
plus the doorway parameters.  Note the constructor stores the doorway height
under `self.height`; no attribute named `ht` is ever assigned. -/
structure Afe_Dor extends Afe_Plr : Type where
  min_temperature_difference : ℝ
  height : ℝ
  width : ℝ
  discharge_coefficient : ℝ

/-- `Afe_Dor.calculate(self, link, pdrop)` (afedat.py lines 102-150).
Two Python failure modes are reachable and modelled:

* `y = pdrop / gdrho` (line 115) raises `ZeroDivisionError` when
  `gdrho == 0.0` (equal endpoint densities above the temperature threshold);
* `elif y > self.ht` (line 131) raises `AttributeError`, because no `ht`
  attribute exists (the constructor assigns `self.height`), so every
  evaluation that reaches that test — i.e. `y >= 0` — aborts.

`math.sqrt` (always applied to `abs(...)` here) is `Real.sqrt`. -/
noncomputable def Afe_Dor.calculate (d : Afe_Dor) (link : Link) (pdrop : ℝ) :
    Except PyError (ℕ × ℝ × ℝ × ℝ × ℝ) :=
  let drho := link.node0.density - link.node1.density
  let dt := link.node0.temperature - link.node1.temperature
  let gdrho := 9.8 * drho
  if |dt| < d.min_temperature_difference then
    Except.ok (Afe_Plr.calculate d.toAfe_Plr link
      (pdrop - 0.5 * d.height * gdrho))
  else if gdrho = 0 then
    Except.error PyError.zeroDivisionError
  else
    let y := pdrop / gdrho
    let c := 1.414214 * d.width * d.discharge_coefficient
    let df0 := c * Real.sqrt |pdrop| / |gdrho|
    let f0 := 0.666667 * c * Real.sqrt |gdrho * y| * |y|
    let dfh := c * Real.sqrt |(d.height - y) / gdrho|
    let fh := 0.666667 * dfh * |gdrho * (d.height - y)|
    if y < 0 then
      if 0 < drho then
        Except.ok (1, -link.node1.sqrt_density * |fh - f0|, 0,
          link.node1.sqrt_density * |dfh - df0|, 0)
      else
        Except.ok (1, link.node0.sqrt_density * |fh - f0|, 0,
          link.node0.sqrt_density * |dfh - df0|, 0)
    else
      Except.error PyError.attributeError

/-- `Model.set_properties` (model.py lines 96-101).  The source iterates
`self.variable_nodes` — exactly the nodes whose `variable` flag is true —
and mutates each in place; the embedding maps the same update over the
node collection, leaving the non-variable nodes untouched.  Each assignment
reads the fields already written above it (`sqrt_density` the new `density`,
`dvisc` the new `density` and new `viscosity`). -/
noncomputable def set_properties (nodes : List (Node ℝ)) : List (Node ℝ) :=
  nodes.map fun node =>
    if node.«variable» then
      let density := 0.0034838 * (101325.0 + node.pressure) / node.temperature
      let viscosity := 1.71432e-5 + 4.828e-8 * (node.temperature - 273.15)
      { node with density := density, sqrt_density := Real.sqrt density,
                  viscosity := viscosity, dvisc := density / viscosity }
    else node

/-- The property update as §4.1 of the spec words it: density from the
ideal-gas fit, square-root-density the square root of that density,
viscosity the linear fit in temperature, and the density/viscosity ratio —
all functions of the node's own temperature and pressure only; every other
field, and every non-variable node, unchanged. -/
noncomputable def set_properties_spec (nodes : List (Node ℝ)) : List (Node ℝ) :=
  nodes.map fun n =>
    if n.«variable» then
      { n with
        density := 0.0034838 * (101325.0 + n.pressure) / n.temperature
        sqrt_density :=
          Real.sqrt (0.0034838 * (101325.0 + n.pressure) / n.temperature)
        viscosity := 1.71432e-5 + 4.828e-8 * (n.temperature - 273.15)
        dvisc := (0.0034838 * (101325.0 + n.pressure) / n.temperature) /
          (1.71432e-5 + 4.828e-8 * (n.temperature - 273.15)) }
    else n

/-- The node names declared by the node records of an input sequence. -/
def declared_node_names (rs : List (Record ℚ)) : List String :=
  rs.filterMap fun r => match r with
    | Record.node n => some n.name
    | _ => none

/-- The element names declared by the element records of an input sequence. -/
def declared_element_names (rs : List (Record ℚ)) : List String :=
  rs.filterMap fun r => match r with
    | Record.element e => some e.name
    | _ => none

/-- The link records of an input sequence, in order. -/
def link_records_of (rs : List (Record ℚ)) : List (LinkRec ℚ) :=
  rs.filterMap fun r => match r with
    | Record.link l => some l
    | _ => none

/-- A link record that references a node or element name no record of the
sequence declares. -/
def dangling_link (rs : List (Record ℚ)) (l : LinkRec ℚ) : Prop :=
  l.node1 ∉ declared_node_names rs ∨ l.node2 ∉ declared_node_names rs ∨
    l.element ∉ declared_element_names rs

/-- A concrete `Afe_Plr` used to instantiate the universally quantified
flow-law facts. -/
def plr_witness : Afe_Plr :=
  { init_coeff := 1, linear := 1, coefficient := 2, exponent := 1 }

/-- A concrete node with unit derived properties. -/
def node_unit : Node ℝ :=
  { name := "n", «variable» := true, height := 0, temperature := 293.15,
    pressure := 0, index := none, density := 1, viscosity := 1,
    sqrt_density := 1, dvisc := 1 }

/-- A concrete link joining two copies of `node_unit`. -/
def link_unit : Link :=
  { node0 := node_unit, node1 := node_unit, ht0 := 0, ht1 := 0 }

/-- A concrete `Afe_Dor` attribute state (doorway 2 m high, 1 m wide). -/
def dor_witness : Afe_Dor :=
  { init_coeff := 1, linear := 1, coefficient := 1, exponent := 0.5,
    min_temperature_difference := 1, height := 2, width := 1,
    discharge_coefficient := 0.6 }

/-- A doorway with a zero two-way-flow temperature threshold, so any
temperature difference triggers the stack-effect branch. -/
def dor_bug : Afe_Dor :=
  { init_coeff := 1, linear := 1, coefficient := 1, exponent := 0.5,
    min_temperature_difference := 0, height := 2, width := 1,
    discharge_coefficient := 0.6 }

/-- Endpoint with unit temperature and density. -/
def node_warm : Node ℝ :=
  { name := "w", «variable» := true, height := 0, temperature := 1,
    pressure := 0, index := none, density := 1, viscosity := 1,
    sqrt_density := 1, dvisc := 1 }

/-- Endpoint with zero temperature and density, giving `dt = 1`, `drho = 1`
against `node_warm`. -/
def node_cold : Node ℝ :=
  { name := "c", «variable» := true, height := 0, temperature := 0,
    pressure := 0, index := none, density := 0, viscosity := 1,
    sqrt_density := 1, dvisc := 1 }

/-- A link with a unit temperature and density difference. -/
def link_stack : Link :=
  { node0 := node_warm, node1 := node_cold, ht0 := 0, ht1 := 0 }

/-- C1: the claim says a node's `variable` flag is true exactly when the
record's type code is **not** `'c'`.  The code (model.py line 51) computes
`variable = el.pop('type', 'c') == 'c'`: a type-`'v'` record yields
`variable = false` and a type-`'c'` record yields `variable = true`, the
exact opposite of the claim (and of the reader's convention, which omits the
fixed pressure field precisely for type-`'v'` nodes). -/
theorem node_variable_flag_inverted :
    (node_from_record ⟨"node-2", some "v", 0, 20, none⟩).«variable» = false ∧
    (node_from_record ⟨"node-1", some "c", 0, 20, some 0⟩).«variable» = true :=
  ⟨rfl, rfl⟩

/-- C2: constructing a `Model` from the records the repository's `Reader`
produces for the example network does not succeed: the reader tags element
records with the enum member `ElementType.PLR`, while `object_lookup` is
keyed by the string `'plr'`, so `element_lookup[type]` raises `KeyError` at
the first element record and construction aborts. -/
theorem model_init_example_network_keyError :
    Model_init afdata_pl2_records = Except.error PyError.keyError := rfl

/-- C3: the claim says `get_arg` falls back to the long alias and raises
`MissingArgument` when both aliases are absent.  In the code `dict.get`
never raises, so `get_arg` always returns its first lookup: it ignores a
value supplied only under the long alias, returns `None` when both aliases
are absent, and `Afe_Plr` built with neither `'lam'` nor `'linear'`
succeeds, silently storing `None` in `self.linear`. -/
theorem get_arg_never_raises :
    get_arg [("linear", (2 : ℚ))] "lam" "linear" "Afe_Plr" = Except.ok none ∧
    get_arg ([] : List (String × ℚ)) "lam" "linear" "Afe_Plr" =
      Except.ok none ∧
    Afe_Plr_init [("turb", (1 : ℚ))] =
      Except.ok ⟨none, none, some 1, 0.5⟩ :=
  ⟨rfl, rfl, rfl⟩

/-- C8: every call of the `Afe_Dor` constructor raises `TypeError`: its
first statement `super().__init__(kwargs)` passes the kwargs dict as a
positional argument to `Afe_Plr.__init__(self, **kwargs)`, which accepts
none, so no `Afe_Dor` instance is ever created. -/
theorem dor_init_always_typeError (kwargs : List (String × ℚ)) :
    Afe_Dor_init kwargs = Except.error PyError.typeError := rfl

/-- C5: at `Δp == 0` the Plr law returns one branch, flow exactly `0`,
second flow and second derivative `0`, and derivative
`0.5 × linear × (node0.dvisc + node1.dvisc)`. -/
theorem plr_calculate_zero (e : Afe_Plr) (link : Link) :
    Afe_Plr.calculate e link 0 =
      (1, 0, 0, 0.5 * e.linear * (link.node0.dvisc + link.node1.dvisc), 0) := by
  simp [Afe_Plr.calculate]

/-- C9: `set_properties` gives each variable node exactly the densities,
viscosity and derived ratios of §4.1, computed from that node's own
temperature and pressure, and leaves every non-variable node unchanged. -/
theorem set_properties_matches_spec (nodes : List (Node ℝ)) :
    set_properties nodes = set_properties_spec nodes := rfl

/-- C4: for `Δp ≠ 0` the Plr law returns one branch; for `Δp > 0` it
compares the laminar candidate `linear × node0.dvisc × Δp` with the
turbulent candidate `coefficient × node0.sqrt_density × Δp^exponent`,
returning the laminar flow and slope when `fl ≤ ft` and otherwise the
turbulent flow with derivative `ft × exponent / Δp`; for `Δp < 0` the same
computation is mirrored onto `node1`'s properties with the turbulent term
negated and the comparison reversed to `fl ≥ ft`. -/
theorem plr_calculate_nonzero (e : Afe_Plr) (link : Link) (pdrop : ℝ)
    (h : pdrop ≠ 0) :
    Afe_Plr.calculate e link pdrop =
      if 0 < pdrop then
        if e.linear * link.node0.dvisc * pdrop ≤
            e.coefficient * link.node0.sqrt_density * pdrop ^ e.exponent then
          (1, e.linear * link.node0.dvisc * pdrop, 0,
            e.linear * link.node0.dvisc, 0)
        else
          (1, e.coefficient * link.node0.sqrt_density * pdrop ^ e.exponent, 0,
            e.coefficient * link.node0.sqrt_density * pdrop ^ e.exponent *
              e.exponent / pdrop, 0)
      else
        if e.linear * link.node1.dvisc * pdrop ≥
            -(e.coefficient * link.node1.sqrt_density *
              (-pdrop) ^ e.exponent) then
          (1, e.linear * link.node1.dvisc * pdrop, 0,
            e.linear * link.node1.dvisc, 0)
        else
          (1, -(e.coefficient * link.node1.sqrt_density *
              (-pdrop) ^ e.exponent), 0,
            -(e.coefficient * link.node1.sqrt_density *
              (-pdrop) ^ e.exponent) * e.exponent / pdrop, 0) := by
  rcases h.lt_or_lt with hneg | hpos
  · have h1 : ¬ (0 < pdrop) := not_lt.2 hneg.le
    simp only [Afe_Plr.calculate, if_neg h1, if_pos hneg, neg_mul]
  · simp only [Afe_Plr.calculate, if_pos hpos]

/-- Witness for `plr_calculate_nonzero` at `Δp = 1` on `plr_witness` and
`link_unit`: the laminar candidate `1` wins against the turbulent
candidate `2`. -/
theorem plr_calculate_nonzero_witness :
    Afe_Plr.calculate plr_witness link_unit 1 = (1, 1, 0, 1, 0) := by
  have h := plr_calculate_nonzero plr_witness link_unit 1 one_ne_zero
  rw [h]
  norm_num [plr_witness, link_unit, node_unit, Real.rpow_one]

/-- C7: when the endpoint temperature difference magnitude is below the
doorway's threshold, `Afe_Dor.calculate` equals the Plr law evaluated at
`Δp − 0.5 × height × 9.8 × (node0.density − node1.density)`; with equal
endpoint densities this is the Plr result at the same `Δp`. -/
theorem dor_calculate_below_threshold (d : Afe_Dor) (link : Link) (pdrop : ℝ)
    (h : |link.node0.temperature - link.node1.temperature| <
      d.min_temperature_difference) :
    Afe_Dor.calculate d link pdrop =
      Except.ok (Afe_Plr.calculate d.toAfe_Plr link
        (pdrop - 0.5 * d.height *
          (9.8 * (link.node0.density - link.node1.density)))) ∧
    (link.node0.density = link.node1.density →
      Afe_Dor.calculate d link pdrop =
        Except.ok (Afe_Plr.calculate d.toAfe_Plr link pdrop)) := by
  constructor
  · simp only [Afe_Dor.calculate, if_pos h]
  · intro hrho
    simp only [Afe_Dor.calculate, if_pos h, hrho, sub_self, mul_zero,
      sub_zero]

/-- Witness for `dor_calculate_below_threshold` on `dor_witness` and
`link_unit` (equal temperatures, equal densities) at `Δp = 3`. -/
theorem dor_calculate_below_threshold_witness :
    Afe_Dor.calculate dor_witness link_unit 3 =
      Except.ok (Afe_Plr.calculate dor_witness.toAfe_Plr link_unit
        (3 - 0.5 * dor_witness.height *
          (9.8 * (link_unit.node0.density - link_unit.node1.density)))) ∧
    (link_unit.node0.density = link_unit.node1.density →
      Afe_Dor.calculate dor_witness link_unit 3 =
        Except.ok (Afe_Plr.calculate dor_witness.toAfe_Plr link_unit 3)) :=
  dor_calculate_below_threshold dor_witness link_unit 3
    (by norm_num [dor_witness, link_unit, node_unit])

/-- C6: the claim says that above the temperature threshold with
`0 ≤ y ≤ height` the doorway returns two opposite-direction flows.  In the
code the branch dispatch `elif y > self.ht` (afedat.py line 131) reads an
attribute `ht` that the constructor never assigns (it stores the height
under `self.height`), so every evaluation with `y ≥ 0` — including the
whole claimed two-way region — raises `AttributeError` instead; here
`|dt| = 1 ≥ 0 = dtmin`, `drho = 1`, `Δp = 0`, so `y = 0 ∈ [0, height]`. -/
theorem dor_calculate_two_way_attributeError :
    Afe_Dor.calculate dor_bug link_stack 0 =
      Except.error PyError.attributeError := by
  norm_num [Afe_Dor.calculate, dor_bug, link_stack, node_warm, node_cold,
    abs_one]

theorem dict_get_cons {β : Type} (a : String × β) (m : List (String × β))
    (k : String) :
    dict_get (a :: m) k = if a.1 = k then some a.2 else dict_get m k := by
  rcases eq_or_ne a.1 k with h | h
  · rw [if_pos h]
    simp only [dict_get]
    rw [List.find?_cons_of_pos _ (by simp [h])]
    rfl
  · rw [if_neg h]
    simp only [dict_get]
    rw [List.find?_cons_of_neg _ (by simp [h])]

theorem dict_get_set_ne {β : Type} (m : List (String × β)) (k nm : String)
    (v : β) (h : k ≠ nm) : dict_get (dict_set m k v) nm = dict_get m nm := by
  induction m with
  | nil => simp [dict_set, dict_get_cons, h]
  | cons a m ih =>
    simp only [dict_set]
    by_cases hak : a.1 = k
    · rw [if_pos hak, dict_get_cons, dict_get_cons]
      simp [hak, h]
    · rw [if_neg hak, dict_get_cons, dict_get_cons, ih]

theorem build_step_nodes_ne (s : BuildState) (r : Record ℚ) (s1 : BuildState)
    (nm : String) (h : build_step s r = Except.ok s1)
    (hr : ∀ n, r = Record.node n → n.name ≠ nm) :
    dict_get s1.nodes nm = dict_get s.nodes nm := by
  cases r with
  | title t => simp only [build_step] at h; cases h; rfl
  | node n =>
    simp only [build_step] at h
    cases h
    exact dict_get_set_ne _ _ _ _ (hr n rfl)
  | link l => simp only [build_step] at h; cases h; rfl
  | element e =>
    simp only [build_step] at h
    split at h
    · cases h
    · split at h
      · cases h
      · cases h; rfl

theorem build_step_elements_ne (s : BuildState) (r : Record ℚ)
    (s1 : BuildState) (nm : String) (h : build_step s r = Except.ok s1)
    (hr : ∀ e, r = Record.element e → e.name ≠ nm) :
    dict_get s1.elements nm = dict_get s.elements nm := by
  cases r with
  | title t => simp only [build_step] at h; cases h; rfl
  | node n => simp only [build_step] at h; cases h; rfl
  | link l => simp only [build_step] at h; cases h; rfl
  | element e =>
    simp only [build_step] at h
    split at h
    · cases h
    · split at h
      · cases h
      · cases h
        exact dict_get_set_ne _ _ _ _ (hr e rfl)

theorem build_step_links_eq (s : BuildState) (r : Record ℚ) (s1 : BuildState)
    (h : build_step s r = Except.ok s1) :
    s1.link_records = s.link_records ++ link_records_of [r] := by
  cases r with
  | title t => simp only [build_step] at h; cases h; simp [link_records_of]
  | node n => simp only [build_step] at h; cases h; simp [link_records_of]
  | link l => simp only [build_step] at h; cases h; simp [link_records_of]
  | element e =>
    simp only [build_step] at h
    split at h
    · cases h
    · split at h
      · cases h
      · cases h; simp [link_records_of]

theorem build_pass_nodes_ne (rs : List (Record ℚ)) (nm : String) :
    ∀ s s1, nm ∉ declared_node_names rs → build_pass rs s = Except.ok s1 →
      dict_get s1.nodes nm = dict_get s.nodes nm := by
  induction rs with
  | nil => intro s s1 _ h; simp only [build_pass] at h; cases h; rfl
  | cons r rs ih =>
    intro s s1 hnm h
    simp only [build_pass] at h
    split at h
    · cases h
    · rename_i s2 heq
      have hr : ∀ n, r = Record.node n → n.name ≠ nm := by
        intro n hrn he
        apply hnm
        rw [hrn]
        simp [declared_node_names, he]
      have htail : nm ∉ declared_node_names rs := by
        intro hmem
        apply hnm
        cases r <;> simp [declared_node_names, List.filterMap_cons] <;>
          simp [declared_node_names] at hmem <;> simp [hmem]
      rw [ih s2 s1 htail h, build_step_nodes_ne s r s2 nm heq hr]

theorem build_pass_elements_ne (rs : List (Record ℚ)) (nm : String) :
    ∀ s s1, nm ∉ declared_element_names rs → build_pass rs s = Except.ok s1 →
      dict_get s1.elements nm = dict_get s.elements nm := by
  induction rs with
  | nil => intro s s1 _ h; simp only [build_pass] at h; cases h; rfl
  | cons r rs ih =>
    intro s s1 hnm h
    simp only [build_pass] at h
    split at h
    · cases h
    · rename_i s2 heq
      have hr : ∀ e, r = Record.element e → e.name ≠ nm := by
        intro e hre he
        apply hnm
        rw [hre]
        simp [declared_element_names, he]
      have htail : nm ∉ declared_element_names rs := by
        intro hmem
        apply hnm
        cases r <;> simp [declared_element_names, List.filterMap_cons] <;>
          simp [declared_element_names] at hmem <;> simp [hmem]
      rw [ih s2 s1 htail h, build_step_elements_ne s r s2 nm heq hr]

theorem build_pass_links_eq (rs : List (Record ℚ)) :
    ∀ s s1, build_pass rs s = Except.ok s1 →
      s1.link_records = s.link_records ++ link_records_of rs := by
  induction rs with
  | nil =>
    intro s s1 h
    simp only [build_pass] at h
    cases h
    simp [link_records_of]
  | cons r rs ih =>
    intro s s1 h
    simp only [build_pass] at h
    split at h
    · cases h
    · rename_i s2 heq
      rw [ih s2 s1 h, build_step_links_eq s r s2 heq]
      cases r <;> simp [link_records_of, List.filterMap_cons]

theorem resolve_link_missing (nodes : List (String × Node ℚ))
    (elements : List (String × ElementObj)) (l : LinkRec ℚ)
    (h : dict_get nodes l.node1 = none ∨ dict_get nodes l.node2 = none ∨
      dict_get elements l.element = none) :
    resolve_link nodes elements l = Except.error PyError.keyError := by
  rcases h with h1 | h2 | h3
  · simp [resolve_link, dict_item, h1]
  · simp only [resolve_link, dict_item, h2]
    cases dict_get nodes l.node1 <;> rfl
  · simp only [resolve_link, dict_item, h3]
    cases dict_get nodes l.node1 <;> cases dict_get nodes l.node2 <;> rfl

theorem resolve_links_missing (nodes : List (String × Node ℚ))
    (elements : List (String × ElementObj)) (ls : List (LinkRec ℚ))
    (l : LinkRec ℚ) (hl : l ∈ ls)
    (h : dict_get nodes l.node1 = none ∨ dict_get nodes l.node2 = none ∨
      dict_get elements l.element = none) :
    ∃ e, resolve_links nodes elements ls = Except.error e := by
  induction ls with
  | nil => cases hl
  | cons a ls ih =>
    rcases List.mem_cons.1 hl with rfl | hl2
    · exact ⟨PyError.keyError, by
        simp [resolve_links, resolve_link_missing nodes elements l h]⟩
    · simp only [resolve_links]
      cases hres : resolve_link nodes elements a with
      | error e => exact ⟨e, rfl⟩
      | ok lo =>
        obtain ⟨e, he⟩ := ih hl2
        exact ⟨e, by rw [he]⟩

/-- C10: an input sequence containing a link record that references a node
name or an element name no record of the sequence declares cannot be built
into a `Model`: `Model.__init__` aborts with an error (a `KeyError` from the
`self.nodes[...]` / `self.elements[...]` lookups during link resolution; if
an element record already failed earlier, with that earlier error). -/
theorem model_init_dangling_link (rs : List (Record ℚ)) (l : LinkRec ℚ)
    (hl : l ∈ link_records_of rs) (hd : dangling_link rs l) :
    ∃ e, Model_init rs = Except.error e := by
  unfold Model_init
  cases hb : build_pass rs ⟨"", [], [], []⟩ with
  | error e => exact ⟨e, rfl⟩
  | ok s =>
    have hlr : s.link_records = link_records_of rs := by
      simpa using build_pass_links_eq rs _ s hb
    have hmiss : dict_get s.nodes l.node1 = none ∨
        dict_get s.nodes l.node2 = none ∨
        dict_get s.elements l.element = none := by
      rcases hd with h | h | h
      · exact Or.inl (build_pass_nodes_ne rs l.node1 _ s h hb)
      · exact Or.inr (Or.inl (build_pass_nodes_ne rs l.node2 _ s h hb))
      · exact Or.inr (Or.inr (build_pass_elements_ne rs l.element _ s h hb))
    obtain ⟨e, he⟩ :=
      resolve_links_missing s.nodes s.elements s.link_records l
        (hlr ▸ hl) hmiss
    exact ⟨e, by simp [he]⟩

/-- Witness for `model_init_dangling_link`: a single link record naming the
undeclared node `a` makes construction fail. -/
theorem model_init_dangling_link_witness :
    ∃ e, Model_init [Record.link ⟨"lk", "a", 0, "b", 0, "el", none, none⟩] =
      Except.error e :=
  model_init_dangling_link _ ⟨"lk", "a", 0, "b", 0, "el", none, none⟩
    (by simp [link_records_of]) (Or.inl (by simp [declared_node_names]))
